import Mathlib

/-!
Verification of the market-sentiment-analysis repository.

This file shallowly embeds the label-normalization, price-resolution,
profile, news and aggregation logic of the repository
(`src/sentiment_analyzer.py`, `src/data_ingestion.py`,
`script/build_silver_dataset.py`, `sentiment/services.py`) and proves or
refutes the specification's claims about them.

Conventions of the embedding:
* Python floats are modelled as rationals (`ℚ`); none of the verified
  properties depend on rounding.
* A Python call that may raise is modelled as `Except String α`; a
  `try/except` block is a `match` on that value.
* Python's truthiness-based `a or b` on optional numbers is modelled by
  `pyOr` (a present `0` is falsy and falls through to `b`).
-/

/-! ## Sentiment scorer (`src/sentiment_analyzer.py`) -/

/-- A classifier output / scorer result: `{'label': ..., 'score': ...}`. -/
structure SentimentResult where
  label : String
  score : ℚ
deriving DecidableEq, Repr

/-- A loaded classification pipeline: a callable from a text to a batch of
raw results; invocation may raise (modelled by `Except`). -/
def Classifier : Type := String → Except String (List SentimentResult)

/-- The literal dictionary `sentiment_map` of `analyze_sentiment`
(`src/sentiment_analyzer.py`, line 46). -/
def sentiment_map : List (String × String) :=
  [("positive", "Positive"), ("negative", "Negative"), ("neutral", "Neutral")]

/-- `sentiment_map.get(raw, 'Neutral')`: exact dictionary lookup with
default `'Neutral'`. -/
def sentiment_map_get (raw : String) : String :=
  ((sentiment_map.find? (fun pr => pr.1 == raw)).map Prod.snd).getD "Neutral"

/-- The value returned by `analyze_sentiment` on its guard and exception
paths: `{'label': 'neutral', 'score': 0.0}` (note the lower-case label,
exactly as written on lines 39 and 51 of `src/sentiment_analyzer.py`). -/
def neutralDefault : SentimentResult := ⟨"neutral", 0⟩

/-- The body of the `try` block of `analyze_sentiment`: invoke the
classifier on the one-element batch `[text]`, take `results[0]` (an empty
batch raises an `IndexError`), and remap the label through
`sentiment_map`. -/
def analyze_sentiment_body (f : Classifier) (text : String) :
    Except String SentimentResult :=
  match f text with
  | .error e => .error e
  | .ok [] => .error "IndexError: list index out of range"
  | .ok (r :: _) => .ok ⟨sentiment_map_get r.label, r.score⟩

/-- `analyze_sentiment(text, classifier)` from `src/sentiment_analyzer.py`:
guard `if not classifier or not text`, then the `try/except` around the
classifier invocation.  Total by construction: the `except` clause turns
every exception into `neutralDefault`. -/
def analyze_sentiment (classifier : Option Classifier) (text : String) :
    SentimentResult :=
  match classifier with
  | none => neutralDefault
  | some f =>
    if text = "" then neutralDefault
    else
      match analyze_sentiment_body f text with
      | .ok r => r
      | .error _ => neutralDefault

/-! ## Offline label normalization (`script/build_silver_dataset.py`) -/

/-- Python's `str.lower()`, for the ASCII label alphabet the pipeline
produces. -/
def pyLower (s : String) : String := ⟨s.data.map Char.toLower⟩

/-- Python's `str.strip()`: drop leading and trailing whitespace. -/
def pyStrip (s : String) : String :=
  ⟨((s.data.dropWhile Char.isWhitespace).reverse.dropWhile
      Char.isWhitespace).reverse⟩

/-- Helper for Python's substring containment test `needle in hay`,
on character lists. -/
def strContainsAux (needle : List Char) : List Char → Bool
  | [] => needle.isEmpty
  | c :: rest => needle.isPrefixOf (c :: rest) || strContainsAux needle rest

/-- Python's `needle in hay` on strings. -/
def strContains (hay needle : String) : Bool :=
  strContainsAux needle.data hay.data

/-- `normalize_label(raw)` from `script/build_silver_dataset.py`, lines
33–44: empty input short-circuits to `"neutral"`; otherwise the stripped,
lower-cased label is tested for the substrings `"pos"`, `"neg"`, `"neu"`
in that order, defaulting to `"neutral"`. -/
def normalize_label (raw : String) : String :=
  if raw = "" then "neutral"
  else
    let r := pyLower (pyStrip raw)
    if strContains r "pos" then "positive"
    else if strContains r "neg" then "negative"
    else if strContains r "neu" then "neutral"
    else "neutral"

/-- The ordered substring-rule table of the spec's normalization policy:
first matching needle wins. -/
def labelRules : List (String × String) :=
  [("pos", "positive"), ("neg", "negative"), ("neu", "neutral")]

/-- Spec-side restatement of the (amended) claim about `normalize_label`:
apply the first rule of `labelRules` whose needle occurs in the stripped,
lower-cased raw label; default to `"neutral"`. -/
def normalize_label_spec (raw : String) : String :=
  ((labelRules.find? (fun pr => strContains (pyLower (pyStrip raw)) pr.1)).map
    Prod.snd).getD "neutral"

/-- Spec-side restatement of the (amended) claim about the live scorer's
remapping: only the three exact lower-case labels are recognized; every
other raw label, including upper-case variants, maps to `"Neutral"`. -/
def sentiment_map_get_spec (raw : String) : String :=
  if raw = "positive" then "Positive"
  else if raw = "negative" then "Negative"
  else if raw = "neutral" then "Neutral"
  else "Neutral"

example : normalize_label "  POSitively  " = "positive" := by decide
example : normalize_label "POSITIVE" = "positive" := by decide
example : sentiment_map_get "POSITIVE" = "Neutral" := by decide
example : sentiment_map_get "negative" = "Negative" := by decide

/-! ## Price resolution (`src/data_ingestion.py`, `get_price_and_change`) -/

/-- The live quote dictionary fields consulted by `get_price_and_change`
(`stock.info`); a missing field is `none`. -/
structure QuoteInfo where
  regularMarketPrice : Option ℚ
  currentPrice : Option ℚ
  regularMarketPreviousClose : Option ℚ
  previousClose : Option ℚ
deriving DecidableEq, Repr

/-- The returned dictionary of `get_price_and_change`. -/
structure PriceSnapshot where
  current_price : Option ℚ
  previous_close : Option ℚ
  change : Option ℚ
  change_pct : Option ℚ
deriving DecidableEq, Repr

/-- The all-`None` snapshot returned when no current price resolves. -/
def allNull : PriceSnapshot := ⟨none, none, none, none⟩

/-- Python's `a or b` on optional prices: a present but zero value is
falsy and falls through to `b`. -/
def pyOr (a b : Option ℚ) : Option ℚ :=
  match a with
  | some v => if v = 0 then b else some v
  | none => b

/-- The final assembly of the snapshot shared by every statement of the
resolution policy (`src/data_ingestion.py`, lines 89–109): an unresolved
current price yields the all-null snapshot; `change` needs both prices;
`change_pct` additionally needs a non-zero previous close. -/
def snapshotOf (filled : Option ℚ × Option ℚ) : PriceSnapshot :=
  match filled.1 with
  | none => allNull
  | some c =>
    match filled.2 with
    | none => ⟨some c, none, none, none⟩
    | some p =>
      let chg := c - p
      ⟨some c, some p, some chg, if p ≠ 0 then some (chg / p * 100) else none⟩

/-- The history backfill of `get_price_and_change` as the source writes
it (`src/data_ingestion.py`, lines 79–87): a two-or-more-row history fills
missing values from `iloc[-1]`/`iloc[-2]`, a one-row history fills both
missing values from `iloc[0]`. -/
def code_fill (current0 prev0 : Option ℚ) (hist : List ℚ) :
    Option ℚ × Option ℚ :=
  if current0 = none ∨ prev0 = none then
    if 2 ≤ hist.length then
      (current0 <|> hist[hist.length - 1]?, prev0 <|> hist[hist.length - 2]?)
    else if hist.length = 1 then
      (current0 <|> hist[0]?, prev0 <|> hist[0]?)
    else (current0, prev0)
  else (current0, prev0)

/-- The history backfill exactly as the claim states it: the last close
fills a missing current price and the second-to-last close fills a missing
previous close — with no provision for a single-row history. -/
def claim_fill (current0 prev0 : Option ℚ) (hist : List ℚ) :
    Option ℚ × Option ℚ :=
  if current0 = none ∨ prev0 = none then
    if 2 ≤ hist.length then
      (current0 <|> hist.getLast?, prev0 <|> hist.dropLast.getLast?)
    else (current0, prev0)
  else (current0, prev0)

/-- The amended history backfill: as the claim states it, plus the
single-row rule the source actually implements (a one-row fallback history
fills both missing prices from its only close). -/
def amended_fill (current0 prev0 : Option ℚ) (hist : List ℚ) :
    Option ℚ × Option ℚ :=
  if current0 = none ∨ prev0 = none then
    if 2 ≤ hist.length then
      (current0 <|> hist.getLast?, prev0 <|> hist.dropLast.getLast?)
    else
      match hist with
      | [c] => (current0 <|> some c, prev0 <|> some c)
      | _ => (current0, prev0)
  else (current0, prev0)

/-- `get_price_and_change(ticker)` from `src/data_ingestion.py`, lines
70–111, on explicit inputs: the live quote fields (`info`) and the closes
of the short-lookback history fetch (`hist`, oldest first).  Live fields
resolve via `or`-chains, missing values are backfilled by `code_fill`,
and `snapshotOf` assembles the returned dictionary. -/
def get_price_and_change (info : QuoteInfo) (hist : List ℚ) : PriceSnapshot :=
  snapshotOf
    (code_fill (pyOr info.regularMarketPrice info.currentPrice)
      (pyOr info.regularMarketPreviousClose info.previousClose) hist)

/-- The price-resolution policy exactly as the claim states it: live
fields first, then the two-row backfill of `claim_fill`, all four fields
null when the current price is still unresolved. -/
def get_price_and_change_claim (info : QuoteInfo) (hist : List ℚ) :
    PriceSnapshot :=
  snapshotOf
    (claim_fill (pyOr info.regularMarketPrice info.currentPrice)
      (pyOr info.regularMarketPreviousClose info.previousClose) hist)

/-- The amended price-resolution policy: the claim's policy extended by
the single-row backfill rule. -/
def get_price_and_change_amended (info : QuoteInfo) (hist : List ℚ) :
    PriceSnapshot :=
  snapshotOf
    (amended_fill (pyOr info.regularMarketPrice info.currentPrice)
      (pyOr info.regularMarketPreviousClose info.previousClose) hist)

example :
    get_price_and_change ⟨none, none, none, none⟩ [10, 12] =
      ⟨some 12, some 10, some 2, some 20⟩ := by
  norm_num [get_price_and_change, code_fill, snapshotOf, pyOr]
example :
    get_price_and_change ⟨some 5, none, none, some 0⟩ [] =
      ⟨some 5, some 0, some 5, none⟩ := by
  norm_num [get_price_and_change, code_fill, snapshotOf, pyOr]
example :
    get_price_and_change ⟨none, none, none, none⟩ [100] =
      ⟨some 100, some 100, some 0, some 0⟩ := by
  norm_num [get_price_and_change, code_fill, snapshotOf, pyOr]
example :
    get_price_and_change_claim ⟨none, none, none, none⟩ [100] = allNull := by
  norm_num [get_price_and_change_claim, claim_fill, snapshotOf, pyOr, allNull]

/-! ## Company profile (`src/data_ingestion.py`, `get_company_info`) -/

/-- The provider `info` fields consulted by `get_company_info`. -/
structure InfoDict where
  longName : Option String
  sector : Option String
  marketCap : Option ℕ
  longBusinessSummary : Option String
deriving DecidableEq, Repr

/-- The profile dictionary built by `get_company_info`. -/
structure Profile where
  companyName : String
  sector : String
  marketCap : String
  businessSummary : String
deriving DecidableEq, Repr

/-- Group a reversed digit list into blocks of three (helper for Python's
thousands-separated format `f"..:,"`). -/
def chunk3 : List Char → List (List Char)
  | [] => []
  | a :: b :: c :: rest => [a, b, c] :: chunk3 rest
  | l => [l]

/-- Python's `f"..:,"` thousands-separated rendering of a natural
number. -/
def commaFormat (n : ℕ) : String :=
  ⟨(((chunk3 (toString n).data.reverse).intersperse [',']).flatten).reverse⟩

/-- `get_company_info(ticker)` from `src/data_ingestion.py`, lines 29–42,
on the success path: `info.get(key, 'N/A')` defaults for name, sector and
summary, and the market cap rendered as `f"$\x7binfo.get('marketCap', 0):,\x7d"`. -/
def get_company_info (info : InfoDict) : Profile :=
  { companyName := info.longName.getD "N/A"
    sector := info.sector.getD "N/A"
    marketCap := "$" ++ commaFormat (info.marketCap.getD 0)
    businessSummary := info.longBusinessSummary.getD "N/A" }

example : commaFormat 1234567 = "1,234,567" := by decide
example : get_company_info ⟨none, none, none, none⟩ =
    ⟨"N/A", "N/A", "$0", "N/A"⟩ := by decide

/-! ## Aggregation service (`sentiment/services.py`, `get_company_data`) -/

/-- A pandas timestamp of the fetched history's index: a UTC instant plus
an optional attached timezone (`none` = timezone-naive). -/
structure Timestamp where
  utc : ℤ
  tz : Option ℤ
deriving DecidableEq, Repr

/-- One OHLCV row of the fetched history; numeric fields the provider
omitted are `none`. -/
structure Row where
  date : Timestamp
  openPrice : Option ℚ
  high : Option ℚ
  low : Option ℚ
  closePrice : Option ℚ
  volume : Option ℤ
deriving DecidableEq, Repr

/-- One serialized history point as built by the loop in
`get_company_data`. -/
structure Point where
  date : Timestamp
  openPrice : ℚ
  high : ℚ
  low : ℚ
  closePrice : ℚ
  volume : ℤ
deriving DecidableEq, Repr

/-- pandas `tz_convert(None)`: converts an aware timestamp to UTC and
drops the timezone; raises `TypeError` on a naive timestamp. -/
def tz_convert_none (t : Timestamp) : Except String Timestamp :=
  match t.tz with
  | some _ => .ok ⟨t.utc, none⟩
  | none => .error "TypeError: Cannot convert tz-naive timestamps"

/-- Python's `float(x or 0.0)` on an optional price: a missing or zero
value yields `0.0`. -/
def pyFloatOr (x : Option ℚ) : ℚ :=
  match x with
  | some v => if v = 0 then 0 else v
  | none => 0

/-- Python's `int(x or 0)` on an optional volume. -/
def pyIntOr (x : Option ℤ) : ℤ :=
  match x with
  | some v => if v = 0 then 0 else v
  | none => 0

/-- The body of the serialization loop of `get_company_data` for one row:
timezone-normalize the index entry and default the numeric fields. -/
def serializeRow (r : Row) : Except String Point :=
  match tz_convert_none r.date with
  | .error e => .error e
  | .ok d =>
    .ok ⟨d, pyFloatOr r.openPrice, pyFloatOr r.high, pyFloatOr r.low,
      pyFloatOr r.closePrice, pyIntOr r.volume⟩

/-- The serialization loop of `get_company_data` over a whole history
(already truncated to the tail): points in row order, the first raised
exception propagating to the enclosing `try`. -/
def serialize_history : List Row → Except String (List Point)
  | [] => .ok []
  | r :: rs =>
    match serializeRow r with
    | .error e => .error e
    | .ok p =>
      match serialize_history rs with
      | .error e => .error e
      | .ok ps => .ok (p :: ps)

/-- pandas `tail(180)`: the last 180 rows (all rows when fewer). -/
def tail180 (rows : List Row) : List Row := rows.drop (rows.length - 180)

/-- The collaborators `get_company_data` calls, each modelled as a value
that the call either returns or raises (`Except`).  `available` is false
when the ingestion module failed to import. -/
structure Providers where
  available : Bool
  get_company_info_call : Except String (Option Profile)
  get_stock_data_call : Except String (Option (List Row))
  get_price_and_change_call : Except String PriceSnapshot

/-- The possible shapes of the dictionary `get_company_data` returns. -/
inductive CompanyData where
  | nameNone : CompanyData
  | errorDict (msg : String) : CompanyData
  | result (profile : Option Profile) (history_head : Option (List Row))
      (history : Option (List Point)) (price : Option PriceSnapshot) :
      CompanyData
deriving DecidableEq, Repr

/-- Whether a `get_company_data` result is the `error:`-keyed dictionary. -/
def CompanyData.isErrorDict : CompanyData → Bool
  | .errorDict _ => true
  | _ => false

/-- The `history` entry of a `get_company_data` result. -/
def CompanyData.historyOf : CompanyData → Option (List Point)
  | .result _ _ h _ => h
  | _ => none

/-- The `price` entry of a `get_company_data` result. -/
def CompanyData.priceOf : CompanyData → Option PriceSnapshot
  | .result _ _ _ p => p
  | _ => none

/-- The inner `try` of `get_company_data` around the price lookup
(`sentiment/services.py`, lines 60–64): its failure degrades to `None`
rather than raising. -/
def priceOpt (p : Providers) : Option PriceSnapshot :=
  match p.get_price_and_change_call with
  | .ok v => some v
  | .error _ => none

/-- The body of the outer `try` block of `get_company_data`
(`sentiment/services.py`, lines 38–71): fetch profile and history,
serialize the last 180 rows when the history is non-empty, fetch the
price snapshot under its own inner `try`, and assemble the result
dictionary (`history_head` is the first five raw rows when a history was
fetched). -/
def get_company_data_body (p : Providers) : Except String CompanyData :=
  match p.get_company_info_call with
  | .error e => .error e
  | .ok profile =>
    match p.get_stock_data_call with
    | .error e => .error e
    | .ok none => .ok (.result profile none none (priceOpt p))
    | .ok (some rows) =>
      if rows.isEmpty then
        .ok (.result profile (some (rows.take 5)) none (priceOpt p))
      else
        match serialize_history (tail180 rows) with
        | .error e => .error e
        | .ok pts =>
          .ok (.result profile (some (rows.take 5)) (some pts) (priceOpt p))

/-- `get_company_data(ticker)` from `sentiment/services.py`: the
module-availability guard returning the `name: None` dictionary, then the
outer `try/except` that converts any escaped exception into the
`error:`-keyed dictionary.  Total by construction — the function never
raises to its caller. -/
def get_company_data (p : Providers) : CompanyData :=
  if p.available then
    match get_company_data_body p with
    | .ok d => d
    | .error e => .errorDict e
  else .nameNone

/-! ## News adapter (`src/data_ingestion.py`, `get_stock_news`) -/

/-- One raw feed entry; fields the feed omitted are `none`. -/
structure RawNews where
  title : Option String
  link : Option String
  published : Option String
deriving DecidableEq, Repr

/-- One analyzed news item as assembled by `get_stock_news`. -/
structure NewsItem where
  title : String
  link : String
  published : String
  sentiment_label : String
  sentiment_score : ℚ
deriving DecidableEq, Repr

/-- `get_stock_news(ticker)` from `src/data_ingestion.py`, lines 115–144:
an unloaded classifier or a failing feed fetch yields `[]`; otherwise each
item's title (default `'No Title'`) is scored with `analyze_sentiment`
and the result's label and score are attached. -/
def get_stock_news (classifier : Option Classifier)
    (feed : Except String (List RawNews)) : List NewsItem :=
  match classifier with
  | none => []
  | some f =>
    match feed with
    | .error _ => []
    | .ok items =>
      items.map (fun it =>
        let title := it.title.getD "No Title"
        let s := analyze_sentiment (some f) title
        ⟨title, it.link.getD "#", it.published.getD "N/A", s.label, s.score⟩)

/-! ## Claim theorems -/

/-- The canonical three-way sentiment vocabulary of the spec. -/
def canonicalLabels : List String := ["Positive", "Negative", "Neutral"]

/-- C1, counterexample.  The claim says label normalization is a
case-insensitive substring match, so the raw label `"POSITIVE"` (which
contains `"pos"` case-insensitively) would map to Positive; but the live
scorer's normalization (`analyze_sentiment` via `sentiment_map`) is an
exact lower-case dictionary lookup and maps it to `"Neutral"`. -/
theorem c1_counterexample :
    strContains (pyLower "POSITIVE") "pos" = true ∧
    (analyze_sentiment
        (some (fun _ => .ok [⟨"POSITIVE", 9 / 10⟩])) "Acme shares jump").label
      = "Neutral" := by
  constructor
  · decide
  · rfl

/-- C1, amended.  The repository has two normalizers with different rules:
the offline `normalize_label` is a case-insensitive substring match on the
stripped label, trying `"pos"`, `"neg"`, `"neu"` in that order and mapping
to the lower-case labels with default `"neutral"`; the live scorer's
`sentiment_map` lookup recognizes only the exact lower-case raw labels
`"positive"`/`"negative"`/`"neutral"` and maps everything else, including
case variants, to `"Neutral"`. -/
theorem c1_label_normalization_amended :
    (∀ raw : String, normalize_label raw = normalize_label_spec raw) ∧
    (∀ raw : String, sentiment_map_get raw = sentiment_map_get_spec raw) := by
  constructor
  · intro raw
    by_cases h0 : raw = ""
    · subst h0; decide
    · simp only [normalize_label, normalize_label_spec, labelRules, h0,
        if_false]
      by_cases h1 : strContains (pyLower (pyStrip raw)) "pos"
      · simp [List.find?, h1]
      · by_cases h2 : strContains (pyLower (pyStrip raw)) "neg"
        · simp [List.find?, h1, h2]
        · by_cases h3 : strContains (pyLower (pyStrip raw)) "neu"
          · simp [List.find?, h1, h2, h3]
          · simp [List.find?, h1, h2, h3]
  · intro raw
    by_cases h1 : raw = "positive"
    · subst h1; decide
    · by_cases h2 : raw = "negative"
      · subst h2; decide
      · by_cases h3 : raw = "neutral"
        · subst h3; decide
        · have e1 : ("positive" == raw) = false :=
            beq_eq_false_iff_ne.mpr (Ne.symm h1)
          have e2 : ("negative" == raw) = false :=
            beq_eq_false_iff_ne.mpr (Ne.symm h2)
          have e3 : ("neutral" == raw) = false :=
            beq_eq_false_iff_ne.mpr (Ne.symm h3)
          simp [sentiment_map_get, sentiment_map_get_spec, sentiment_map,
            List.find?, e1, e2, e3, h1, h2, h3]

/-- C3, code bug.  On the guard paths (null handle or empty text) the
scorer returns the lower-case label `'neutral'`, not the canonical
`'Neutral'` the claim (and the repository's own docstring for
`analyze_sentiment` in `script/build_silver_dataset.py`) promises. -/
theorem c3_default_result_eval :
    analyze_sentiment none "Strong earnings" = ⟨"neutral", 0⟩ ∧
    analyze_sentiment (some (fun _ => .ok [⟨"positive", 1⟩])) ""
      = ⟨"neutral", 0⟩ ∧
    ("neutral" : String) ≠ "Neutral" :=
  ⟨rfl, rfl, by decide⟩

/-- C4, code bug.  A news item scored while the classifier raises gets the
lower-case sentiment label `"neutral"` attached, which is not one of the
three canonical values — the invariant fails on the exception path. -/
theorem c4_canonical_label_eval :
    get_stock_news (some (fun _ => .error "CUDA out of memory"))
        (.ok [⟨some "Acme beats estimates", none, none⟩])
      = [⟨"Acme beats estimates", "#", "N/A", "neutral", 0⟩] ∧
    ¬ ("neutral" ∈ canonicalLabels) :=
  ⟨rfl, by decide⟩

/-- C5, confirmed.  Whenever the classifier invocation inside the `try`
block of `analyze_sentiment` raises (the body evaluates to an error), the
call returns the neutral default result instead; the embedding of
`analyze_sentiment` is a total function, so scoring never raises. -/
theorem c5_score_never_raises (f : Classifier) (text : String) (e : String)
    (hinv : analyze_sentiment_body f text = .error e) :
    analyze_sentiment (some f) text = neutralDefault := by
  unfold analyze_sentiment
  by_cases h : text = ""
  · simp [h]
  · simp [h, hinv]

/-- Witness for C5 at a concrete raising classifier. -/
theorem c5_witness :
    analyze_sentiment_body (fun _ => .error "boom") "Acme up 5 pct"
      = .error "boom" ∧
    analyze_sentiment (some (fun _ => .error "boom")) "Acme up 5 pct"
      = neutralDefault :=
  ⟨rfl, c5_score_never_raises (fun _ => .error "boom") "Acme up 5 pct"
    "boom" rfl⟩

/-- Helper: the source's index-based backfill coincides with the amended
policy's last/second-to-last formulation on every history. -/
theorem code_fill_eq_amended_fill (c p : Option ℚ) (hist : List ℚ) :
    code_fill c p hist = amended_fill c p hist := by
  unfold code_fill amended_fill
  by_cases hcp : c = none ∨ p = none
  · rw [if_pos hcp, if_pos hcp]
    match hist with
    | [] => simp
    | [x] => simp
    | x :: y :: t =>
      have h2 : 2 ≤ (x :: y :: t).length := by simp
      rw [if_pos h2, if_pos h2]
      have hlast : (x :: y :: t).getLast?
          = (x :: y :: t)[(x :: y :: t).length - 1]? :=
        List.getLast?_eq_getElem? _
      have hdl : (x :: y :: t).dropLast.getLast?
          = (x :: y :: t)[(x :: y :: t).length - 2]? := by
        rw [List.getLast?_eq_getElem?, List.getElem?_dropLast,
          List.length_dropLast]
        have hl : (x :: y :: t).length = t.length + 2 := by simp
        rw [hl]
        have hidx : t.length + 2 - 1 - 1 = t.length + 2 - 2 := by omega
        rw [hidx]
        rw [if_pos (by omega : t.length + 2 - 2 < t.length + 2 - 1)]
      rw [hlast, hdl]
  · rw [if_neg hcp, if_neg hcp]

/-- C2, counterexample.  With no live quote fields and a one-row fallback
history, the claim's policy (two-day backfill or all-null) yields the
all-null snapshot, but the source resolves both prices from the single
close and returns a fully populated snapshot. -/
theorem c2_counterexample :
    get_price_and_change ⟨none, none, none, none⟩ [100]
        = ⟨some 100, some 100, some 0, some 0⟩ ∧
    get_price_and_change_claim ⟨none, none, none, none⟩ [100] = allNull := by
  constructor
  · norm_num [get_price_and_change, code_fill, snapshotOf, pyOr]
  · norm_num [get_price_and_change_claim, claim_fill, snapshotOf, pyOr,
      allNull]

/-- C2, amended.  The source's price resolution equals the claim's policy
extended with the single-row rule: live quote fields first; a missing side
backfilled from the last two closes (second-to-last as previous, last as
current) when the history has at least two rows, or both missing sides
from the only close when it has exactly one; all four fields null when the
current price is still unresolved. -/
theorem c2_price_fallback_amended (info : QuoteInfo) (hist : List ℚ) :
    get_price_and_change info hist
      = get_price_and_change_amended info hist := by
  unfold get_price_and_change get_price_and_change_amended
  rw [code_fill_eq_amended_fill]

/-- C8, confirmed.  Whenever the resolved previous close is zero, the
returned `change_pct` is null — the percentage is never computed by
dividing by zero. -/
theorem c8_change_pct_zero_prev (info : QuoteInfo) (hist : List ℚ)
    (h : (get_price_and_change info hist).previous_close = some 0) :
    (get_price_and_change info hist).change_pct = none := by
  rcases hF : code_fill (pyOr info.regularMarketPrice info.currentPrice)
      (pyOr info.regularMarketPreviousClose info.previousClose) hist
    with ⟨c?, p?⟩
  unfold get_price_and_change at h ⊢
  rw [hF] at h ⊢
  cases c? with
  | none => simp [snapshotOf, allNull] at h
  | some c =>
    cases p? with
    | none => simp [snapshotOf] at h
    | some p =>
      simp only [snapshotOf, Option.some.injEq] at h
      simp [snapshotOf, h]

/-- Witness for C8: a live current price of 5 with a previous close of 0
yields a non-null change but a null percentage. -/
theorem c8_witness :
    (get_price_and_change ⟨some 5, none, none, some 0⟩ []).previous_close
        = some 0 ∧
    (get_price_and_change ⟨some 5, none, none, some 0⟩ []).change_pct
        = none :=
  ⟨by norm_num [get_price_and_change, code_fill, snapshotOf, pyOr],
    c8_change_pct_zero_prev ⟨some 5, none, none, some 0⟩ []
      (by norm_num [get_price_and_change, code_fill, snapshotOf, pyOr])⟩

/-- C10, confirmed.  With all live quote fields missing and a single-row
fallback history with a non-zero close, both prices resolve to that close,
so the change is 0.0 and the percentage change is 0.0 rather than the
fields being null. -/
theorem c10_single_row_fallback (info : QuoteInfo) (c : ℚ)
    (h1 : info.regularMarketPrice = none) (h2 : info.currentPrice = none)
    (h3 : info.regularMarketPreviousClose = none)
    (h4 : info.previousClose = none) (hc : c ≠ 0) :
    get_price_and_change info [c] = ⟨some c, some c, some 0, some 0⟩ := by
  unfold get_price_and_change
  simp [code_fill, snapshotOf, pyOr, h1, h2, h3, h4, hc, sub_self]

/-- Witness for C10 at the close 5. -/
theorem c10_witness :
    get_price_and_change ⟨none, none, none, none⟩ [5]
        = ⟨some 5, some 5, some 0, some 0⟩ ∧ (5 : ℚ) ≠ 0 :=
  ⟨c10_single_row_fallback ⟨none, none, none, none⟩ 5 rfl rfl rfl rfl
    (by norm_num), by norm_num⟩

/-- Helper: the serialization loop succeeds with one point per input
row. -/
theorem serialize_history_length (rows : List Row) (pts : List Point)
    (h : serialize_history rows = .ok pts) : pts.length = rows.length := by
  induction rows generalizing pts with
  | nil =>
    unfold serialize_history at h
    cases h
    rfl
  | cons r rs ih =>
    unfold serialize_history at h
    cases hr : serializeRow r with
    | error e => rw [hr] at h; cases h
    | ok p =>
      rw [hr] at h
      cases hrs : serialize_history rs with
      | error e => rw [hrs] at h; cases h
      | ok ps =>
        rw [hrs] at h
        cases h
        simp [ih ps hrs]

/-- Helper: every serialized point comes from serializing some input
row. -/
theorem serialize_history_mem (rows : List Row) (pts : List Point)
    (h : serialize_history rows = .ok pts) (pt : Point) (hpt : pt ∈ pts) :
    ∃ r ∈ rows, serializeRow r = .ok pt := by
  induction rows generalizing pts with
  | nil =>
    unfold serialize_history at h
    cases h
    cases hpt
  | cons r rs ih =>
    unfold serialize_history at h
    cases hr : serializeRow r with
    | error e => rw [hr] at h; cases h
    | ok p =>
      rw [hr] at h
      cases hrs : serialize_history rs with
      | error e => rw [hrs] at h; cases h
      | ok ps =>
        rw [hrs] at h
        cases h
        rcases List.mem_cons.mp hpt with hq | hq
        · exact ⟨r, List.mem_cons_self r rs, by rw [hr, hq]⟩
        · obtain ⟨r2, hr2, hok2⟩ := ih ps hrs hq
          exact ⟨r2, List.mem_cons_of_mem r hr2, hok2⟩

/-- Helper: a successfully serialized point is timezone-naive. -/
theorem serializeRow_tz (r : Row) (pt : Point)
    (h : serializeRow r = .ok pt) : pt.date.tz = none := by
  unfold serializeRow tz_convert_none at h
  cases htz : r.date.tz with
  | none => rw [htz] at h; cases h
  | some z =>
    rw [htz] at h
    cases h
    rfl

/-- C6, counterexample.  When the price lookup alone raises, the internal
step fails with an exception but `get_company_data` returns the normal
result dictionary (with `price: None`), not the `error:`-keyed
dictionary the claim requires for every internal failure. -/
theorem c6_counterexample :
    (⟨true, .ok none, .ok none, .error "boom"⟩ :
        Providers).get_price_and_change_call = .error "boom" ∧
    get_company_data ⟨true, .ok none, .ok none, .error "boom"⟩
        = .result none none none none ∧
    (get_company_data
        ⟨true, .ok none, .ok none, .error "boom"⟩).isErrorDict = false :=
  ⟨rfl, rfl, rfl⟩

/-- C6, amended.  `get_company_data` never raises (its embedding is a
total function into `CompanyData`); an exception escaping any step of the
outer `try` body — profile fetch, history fetch or serialization — yields
the `error:`-keyed dictionary, while an exception in the price lookup
alone is caught by its inner `try` and yields `price: None` in an
otherwise normal result. -/
theorem c6_error_dict_amended :
    (∀ (p : Providers) (e : String), p.available = true →
        get_company_data_body p = .error e →
        get_company_data p = .errorDict e) ∧
    (∀ (p : Providers) (prof : Option Profile) (e : String),
        p.available = true → p.get_company_info_call = .ok prof →
        p.get_stock_data_call = .ok none →
        p.get_price_and_change_call = .error e →
        get_company_data p = .result prof none none none) := by
  constructor
  · intro p e hav hbody
    unfold get_company_data
    rw [hav]
    simp [hbody]
  · intro p prof e hav hinfo hstock hprice
    unfold get_company_data
    rw [hav]
    simp [get_company_data_body, hinfo, hstock, priceOpt, hprice]

/-- Witness for C6: a failing profile fetch is reported as the error
dictionary, and a failing price lookup next to healthy other steps is
absorbed as a null price. -/
theorem c6_witness :
    get_company_data ⟨true, .error "profile fetch failed", .ok none,
        .ok ⟨none, none, none, none⟩⟩
      = .errorDict "profile fetch failed" ∧
    get_company_data ⟨true, .ok none, .ok none, .error "quota exceeded"⟩
      = .result none none none none :=
  ⟨c6_error_dict_amended.1
      ⟨true, .error "profile fetch failed", .ok none,
        .ok ⟨none, none, none, none⟩⟩ "profile fetch failed" rfl rfl,
    c6_error_dict_amended.2
      ⟨true, .ok none, .ok none, .error "quota exceeded"⟩ none
      "quota exceeded" rfl rfl rfl rfl⟩

/-- C7, confirmed.  Any serialized history returned by
`get_company_data` has at most 180 points, each point's date is
timezone-naive (so its ISO rendering carries no offset), and each numeric
field the provider omitted is defaulted to `0.0` (prices) or `0`
(volume) by the row serializer. -/
theorem c7_history_serialization :
    (∀ (p : Providers) (pts : List Point),
        (get_company_data p).historyOf = some pts →
        pts.length ≤ 180 ∧ ∀ pt ∈ pts, pt.date.tz = none) ∧
    (∀ (r : Row) (pt : Point), serializeRow r = .ok pt →
        (r.openPrice = none → pt.openPrice = 0) ∧
        (r.high = none → pt.high = 0) ∧
        (r.low = none → pt.low = 0) ∧
        (r.closePrice = none → pt.closePrice = 0) ∧
        (r.volume = none → pt.volume = 0)) := by
  constructor
  · intro p pts h
    unfold get_company_data at h
    by_cases hav : p.available
    · rw [hav] at h
      simp only [if_true] at h
      cases hbody : get_company_data_body p with
      | error e => rw [hbody] at h; simp [CompanyData.historyOf] at h
      | ok d =>
        rw [hbody] at h
        unfold get_company_data_body at hbody
        cases hinfo : p.get_company_info_call with
        | error e => rw [hinfo] at hbody; cases hbody
        | ok profile =>
          rw [hinfo] at hbody
          cases hstock : p.get_stock_data_call with
          | error e => rw [hstock] at hbody; cases hbody
          | ok hist =>
            rw [hstock] at hbody
            cases hist with
            | none =>
              cases hbody
              simp [CompanyData.historyOf] at h
            | some rows =>
              dsimp only at hbody
              by_cases hemp : rows.isEmpty
              · rw [if_pos hemp] at hbody
                cases hbody
                simp [CompanyData.historyOf] at h
              · rw [if_neg hemp] at hbody
                cases hser : serialize_history (tail180 rows) with
                | error e => rw [hser] at hbody; cases hbody
                | ok pts2 =>
                  rw [hser] at hbody
                  cases hbody
                  simp only [CompanyData.historyOf, Option.some.injEq] at h
                  subst h
                  constructor
                  · have hlen := serialize_history_length _ _ hser
                    have hd : (tail180 rows).length ≤ 180 := by
                      unfold tail180
                      rw [List.length_drop]
                      omega
                    omega
                  · intro pt hpt
                    obtain ⟨r, _, hok⟩ :=
                      serialize_history_mem _ _ hser pt hpt
                    exact serializeRow_tz r pt hok
    · rw [if_neg hav] at h
      simp [CompanyData.historyOf] at h
  · intro r pt hok
    unfold serializeRow tz_convert_none at hok
    cases htz : r.date.tz with
    | none => rw [htz] at hok; cases hok
    | some z =>
      rw [htz] at hok
      cases hok
      refine ⟨fun h => ?_, fun h => ?_, fun h => ?_, fun h => ?_,
        fun h => ?_⟩ <;> simp [pyFloatOr, pyIntOr, h]

/-- A one-row, timezone-aware, all-fields-missing history used to witness
the serialization claim. -/
def witnessRow : Row := ⟨⟨100, some 3600⟩, none, none, none, none, none⟩

/-- Providers delivering `witnessRow` with a failing price lookup. -/
def witnessProviders : Providers :=
  ⟨true, .ok none, .ok (some [witnessRow]), .error "offline"⟩

/-- The point `witnessRow` serializes to. -/
def witnessPoint : Point := ⟨⟨100, none⟩, 0, 0, 0, 0, 0⟩

/-- Witness for C7 at a concrete one-row history. -/
theorem c7_witness :
    (get_company_data witnessProviders).historyOf = some [witnessPoint] ∧
    ([witnessPoint].length ≤ 180 ∧ witnessPoint.date.tz = none) ∧
    (witnessRow.openPrice = none ∧ witnessPoint.openPrice = 0) := by
  refine ⟨rfl, ⟨?_, ?_⟩, rfl, ?_⟩
  · exact (c7_history_serialization.1 witnessProviders [witnessPoint] rfl).1
  · exact (c7_history_serialization.1 witnessProviders [witnessPoint]
      rfl).2 witnessPoint (by simp)
  · exact ((c7_history_serialization.2 witnessRow witnessPoint rfl).1) rfl

/-- C9, counterexample.  A profile whose provider data is entirely missing
gets `"N/A"` for name, sector and summary, but the market-cap field is
the formatted string `"$0"`, not `"N/A"` as the claim states. -/
theorem c9_counterexample :
    get_company_info ⟨none, none, none, none⟩
        = ⟨"N/A", "N/A", "$0", "N/A"⟩ ∧
    ("$0" : String) ≠ "N/A" :=
  ⟨by decide, by decide⟩

/-- C9, amended.  Missing provider data yields `"N/A"` for the name,
sector and business-summary fields, while a missing market cap is
formatted from the default `0` as the string `"$0"`. -/
theorem c9_profile_defaults_amended (info : InfoDict) :
    (info.longName = none → (get_company_info info).companyName = "N/A") ∧
    (info.sector = none → (get_company_info info).sector = "N/A") ∧
    (info.longBusinessSummary = none →
      (get_company_info info).businessSummary = "N/A") ∧
    (info.marketCap = none → (get_company_info info).marketCap = "$0") := by
  refine ⟨fun h => ?_, fun h => ?_, fun h => ?_, fun h => ?_⟩
  · simp [get_company_info, h]
  · simp [get_company_info, h]
  · simp [get_company_info, h]
  · simp only [get_company_info, h, Option.getD_none]
    decide

/-- Witness for C9 at the all-missing provider dictionary. -/
theorem c9_witness :
    (get_company_info ⟨none, none, none, none⟩).companyName = "N/A" ∧
    (get_company_info ⟨none, none, none, none⟩).sector = "N/A" ∧
    (get_company_info ⟨none, none, none, none⟩).businessSummary = "N/A" ∧
    (get_company_info ⟨none, none, none, none⟩).marketCap = "$0" :=
  ⟨(c9_profile_defaults_amended ⟨none, none, none, none⟩).1 rfl,
    (c9_profile_defaults_amended ⟨none, none, none, none⟩).2.1 rfl,
    (c9_profile_defaults_amended ⟨none, none, none, none⟩).2.2.1 rfl,
    (c9_profile_defaults_amended ⟨none, none, none, none⟩).2.2.2 rfl⟩
